import Mathlib

/-!
# Student Performance Tracker — verification of the attendance/roster core

Shallow embedding of the core logic of `app.py`: the entity store
(Student / Enrollment / Session / Attendance), the attendance-percentage
aggregator (`attendance_report`, lines 584–627), the attendance upsert
(`mark_attendance`, lines 512–558), manual enrollment (`create_student`,
lines 384–449), session creation (`create_session`, lines 455–506) and the
CSV roster import (`import_students`, lines 728–816).

Python floats are modelled as exact rationals (`ℚ`); the weights involved
(1.0, 0.75, 0.5, 0.0) and their sums are exactly representable.  Database
rows are lists of records; a SQLAlchemy `query.filter_by(...).first()` is
`List.find?`; `db.session.add` appends; a committed transaction replaces the
store wholesale, and a rolled-back one leaves the original store, mirroring
the SQLAlchemy session contract (commit applies all pending writes,
rollback discards them all).
-/

namespace Tracker

/-- A `Student` row (`app.py` lines 73–81).  `student_id` is the optional
external identifier (unique when present), distinct from the primary key
`id`. -/
structure Student where
  id : Nat
  full_name : String
  student_id : Option String
  email : Option String
deriving DecidableEq, Repr

/-- An `Enrollment` row (`app.py` lines 83–94), linking a course to a
student; unique per (course_id, student_id). -/
structure Enrollment where
  course_id : Nat
  student_id : Nat
deriving DecidableEq, Repr

/-- A `Session` row (`app.py` lines 96–107); the calendar date is encoded
as a natural number, unique per (course_id, session_date). -/
structure Session where
  id : Nat
  course_id : Nat
  session_date : Nat
deriving DecidableEq, Repr

/-- An `Attendance` row (`app.py` lines 109–123); unique per
(session_id, student_id). -/
structure Attendance where
  session_id : Nat
  student_id : Nat
  status : String
  notes : Option String
deriving DecidableEq, Repr

/-- The relational store restricted to the tables the attendance/roster
core reads and writes. -/
structure Store where
  students : List Student
  enrollments : List Enrollment
  sessions : List Session
  attendance : List Attendance
deriving DecidableEq, Repr

/-- `ATTENDANCE_WEIGHTS` (`app.py` lines 143–148), as the association list
underlying the Python dict. -/
def ATTENDANCE_WEIGHTS : List (String × ℚ) :=
  [("Present", 1), ("Late", 3/4), ("Excused", 1/2), ("Absent", 0)]

/-- `ATTENDANCE_WEIGHTS.get(status, default)` — dict lookup with a default
(`app.py` lines 311, 608). -/
def weightsGet (status : String) (default : ℚ) : ℚ :=
  match ATTENDANCE_WEIGHTS.lookup status with
  | some w => w
  | none => default

/-- `ATTENDANCE_WEIGHTS['Absent']` — direct dict access (`app.py` lines
313, 610); the key is present, so the `getD` default is never used. -/
def absentWeight : ℚ :=
  (ATTENDANCE_WEIGHTS.lookup "Absent").getD 0

/-- `Attendance.query.filter_by(session_id=…, student_id=…).first()` — the
per-pair record lookup used at `app.py` lines 306–309, 534–537 and
602–605. -/
def attFor (atts : List Attendance) (sid stuId : Nat) : Option Attendance :=
  atts.find? (fun a => a.session_id == sid && a.student_id == stuId)

/-- The weight one session contributes for one student
(`app.py` lines 601–610): look up the Attendance record for
(session, student); a found record contributes `weights.get(status, 0.0)`,
a missing one contributes `ATTENDANCE_WEIGHTS['Absent']`. -/
def sessionWeight (atts : List Attendance) (sid stuId : Nat) : ℚ :=
  match attFor atts sid stuId with
  | some a => weightsGet a.status 0
  | none => absentWeight

/-- The sessions of a course (`app.py` line 586).  The query orders by
date; the order is irrelevant to the sum below and is kept as stored. -/
def courseSessions (st : Store) (courseId : Nat) : List Session :=
  st.sessions.filter (fun s => s.course_id == courseId)

/-- The attendance percentage of one student in one course
(`app.py` lines 596–612): 0.0 when the course has no sessions, otherwise
the summed per-session weights divided by the session count times 100. -/
def attendancePercentage (st : Store) (courseId stuId : Nat) : ℚ :=
  if (courseSessions st courseId).length = 0 then 0
  else
    ((courseSessions st courseId).foldl
        (fun acc s => acc + sessionWeight st.attendance s.id stuId) 0)
      / (courseSessions st courseId).length * 100

/-- Update the first row matching `p` and leave every other row untouched:
`mark_attendance` mutates the single ORM object returned by `.first()`
(`app.py` lines 539–542). -/
def updateFirst (p : Attendance → Bool) (f : Attendance → Attendance) :
    List Attendance → List Attendance
  | [] => []
  | a :: rest => if p a then f a :: rest else a :: updateFirst p f rest

/-- The per-student attendance write of `mark_attendance`
(`app.py` lines 532–550): if a record for (session, student) already
exists its status and notes are overwritten in place, otherwise a new
record is added. -/
def upsertAttendance (atts : List Attendance) (sid stuId : Nat)
    (status : String) (notes : Option String) : List Attendance :=
  match attFor atts sid stuId with
  | some _ =>
      updateFirst (fun a => a.session_id == sid && a.student_id == stuId)
        (fun a => { a with status := status, notes := notes }) atts
  | none => atts ++ [⟨sid, stuId, status, notes⟩]

/-- `value or None` — Python stores a falsy (empty) string as NULL. -/
def orNone (s : String) : Option String :=
  if s = "" then none else some s

/-- `Student.query.filter_by(full_name=…).first()` — the natural-key lookup
by exact full name (`app.py` lines 405, 768). -/
def studentByName (st : Store) (n : String) : Option Student :=
  st.students.find? (fun s => s.full_name == n)

/-- `Student.query.filter_by(student_id=…).first()` — lookup by the external
student identifier (`app.py` lines 409, 772). -/
def studentByExtId (st : Store) (ext : String) : Option Student :=
  st.students.find? (fun s => s.student_id == some ext)

/-- `Enrollment.query.filter_by(course_id=…, student_id=…).first()` followed
by a truthiness test (`app.py` lines 426–431, 789–794). -/
def enrollmentExists (st : Store) (c stuId : Nat) : Bool :=
  (st.enrollments.find? (fun e => e.course_id == c && e.student_id == stuId)).isSome

/-- The POST body of `create_student` — manual "enroll student"
(`app.py` lines 387–447), after the course-ownership guard (lines
397–401), which involves only the unmodelled Course table.  `newId` is the
primary key the store would assign to a freshly created Student.  An error
result leaves the store unchanged: every error path either runs before any
write or returns without committing, and uncommitted session state is
rolled back. -/
def create_student (st : Store) (full_name ext_id email : String)
    (courseId newId : Nat) : Store × Option String :=
  if full_name = "" then
    (st, some "Student name and course selection are required")
  else
    match studentByName st full_name with
    | some student =>
        if enrollmentExists st courseId student.id then
          (st, some "Student is already enrolled in this course")
        else
          ({ st with enrollments := st.enrollments ++ [⟨courseId, student.id⟩] }, none)
    | none =>
        if ext_id ≠ "" && (studentByExtId st ext_id).isSome then
          (st, some ("Student ID " ++ ext_id ++ " already exists"))
        else if enrollmentExists st courseId newId then
          (st, some "Student is already enrolled in this course")
        else
          ({ st with
              students := st.students ++ [⟨newId, full_name, orNone ext_id, orNone email⟩],
              enrollments := st.enrollments ++ [⟨courseId, newId⟩] }, none)

/-- `Session.query.filter_by(course_id=…, session_date=…).first()`
(`app.py` lines 480–483). -/
def sessionByCourseDate (st : Store) (c d : Nat) : Option Session :=
  st.sessions.find? (fun s => s.course_id == c && s.session_date == d)

/-- The POST body of `create_session` (`app.py` lines 458–504) after input
validation and the course-ownership guard: reject when a session for the
same (course, date) already exists, otherwise insert one. -/
def create_session (st : Store) (courseId d newId : Nat) : Store × Option String :=
  if (sessionByCourseDate st courseId d).isSome then
    (st, some "Session already exists for this course and date")
  else
    ({ st with sessions := st.sessions ++ [⟨newId, courseId, d⟩] }, none)

/-- `db.session.query(Enrollment, Student).join(…).filter(course_id=…)` —
the enrolled students of a course, in enrollment order (`app.py` lines
521–523, 589–591). -/
def enrolledStudents (st : Store) (courseId : Nat) : List Student :=
  (st.enrollments.filter (fun e => e.course_id == courseId)).filterMap
    (fun e => st.students.find? (fun s => s.id == e.student_id))

/-- The pending attendance table after the `mark_attendance` POST loop
(`app.py` lines 528–550): one upsert per enrolled student whose submitted
status is present and non-empty (`if status:`). -/
def attendanceWrites (atts : List Attendance) (sessionId : Nat)
    (students : List Student) (statusOf : Nat → Option String)
    (notesOf : Nat → String) : List Attendance :=
  students.foldl
    (fun acc stu =>
      match statusOf stu.id with
      | some status =>
          if status ≠ "" then
            upsertAttendance acc sessionId stu.id status (orNone (notesOf stu.id))
          else acc
      | none => acc) atts

/-- The POST body of `mark_attendance` (`app.py` lines 512–558).
`statusOf` and `notesOf` give the submitted form fields `status_{id}` and
`notes_{id}` (notes already stripped).  The loop builds pending writes;
`db.session.commit()` makes them all durable at once, and any failure
triggers `db.session.rollback()`, discarding every pending write — the
boolean `commitOk` models whether the surrounding transaction succeeds. -/
def mark_attendance (st : Store) (sessionId : Nat)
    (statusOf : Nat → Option String) (notesOf : Nat → String)
    (commitOk : Bool) : Store × Option String :=
  match st.sessions.find? (fun s => s.id == sessionId) with
  | none => (st, some "not found")
  | some sess =>
      let newAtts := attendanceWrites st.attendance sessionId
        (enrolledStudents st sess.course_id) statusOf notesOf
      if commitOk then ({ st with attendance := newAtts }, none)
      else (st, some "An error occurred while saving attendance")

/-- One row of the imported roster CSV (`app.py` lines 757–765): the
stripped `Full Name`, `Student ID` and `Email` columns.  `fail` models a
store-level exception raised while processing this row — the exception the
per-row `try/except` at lines 758–802 catches; `none` for a row processed
normally. -/
structure CsvRow where
  full_name : String
  ext_id : String
  email : String
  fail : Option String
deriving DecidableEq, Repr

/-- The outcome counters of a bulk import (`app.py` lines 753–755). -/
structure ImportReport where
  imported : Nat
  skipped : Nat
  errors : List String
deriving DecidableEq, Repr

/-- Processing of one CSV row by `import_students` (`app.py` lines
757–802): skip empty names; find the student by name, else by external ID
(adopting an existing record), else create one; then enroll unless already
enrolled (a skip, not an error).  A raised store error is recorded and the
row's effects are not kept. -/
def importRow (st : Store) (courseId : Nat) (r : CsvRow) (newId : Nat)
    (rep : ImportReport) : Store × ImportReport :=
  match r.fail with
  | some e =>
      (st, { rep with errors := rep.errors ++ ["Row " ++ r.full_name ++ ": " ++ e] })
  | none =>
      if r.full_name = "" then (st, { rep with skipped := rep.skipped + 1 })
      else
        let found : Store × Nat :=
          match studentByName st r.full_name with
          | some s => (st, s.id)
          | none =>
              if r.ext_id ≠ "" then
                match studentByExtId st r.ext_id with
                | some s => (st, s.id)
                | none =>
                    ({ st with students :=
                        st.students ++ [⟨newId, r.full_name, orNone r.ext_id, orNone r.email⟩] },
                      newId)
              else
                ({ st with students :=
                    st.students ++ [⟨newId, r.full_name, none, orNone r.email⟩] }, newId)
        if enrollmentExists found.1 courseId found.2 then
          (found.1, { rep with skipped := rep.skipped + 1 })
        else
          ({ found.1 with enrollments := found.1.enrollments ++ [⟨courseId, found.2⟩] },
            { rep with imported := rep.imported + 1 })

/-- The row loop of `import_students` (`app.py` lines 757–802): rows are
processed independently, in order; `nextId` supplies fresh primary keys. -/
def importRows (st : Store) (courseId : Nat) (rows : List CsvRow) (nextId : Nat)
    (rep : ImportReport) : Store × ImportReport :=
  match rows with
  | [] => (st, rep)
  | r :: rest =>
      importRows (importRow st courseId r nextId rep).1 courseId rest (nextId + 1)
        (importRow st courseId r nextId rep).2

/-- `import_students` (`app.py` lines 749–808): run all rows starting from
zeroed counters. -/
def import_students (st : Store) (courseId : Nat) (rows : List CsvRow)
    (nextId : Nat) : Store × ImportReport :=
  importRows st courseId rows nextId ⟨0, 0, []⟩

/-- One entry of the course attendance report (`app.py` lines 614–618):
the student, the percentage rounded to one decimal, and the course's
session count. -/
structure ReportEntry where
  student : Student
  percentage : ℚ
  total_sessions : Nat
deriving DecidableEq, Repr

/-- Python's `round(x, 1)` as used at `app.py` line 616: round half to even
at one decimal place (binary-float representation effects are outside the
rational model). -/
def roundHalfEven (x : ℚ) : ℤ :=
  if Int.fract x < 1/2 then ⌊x⌋
  else if 1/2 < Int.fract x then ⌊x⌋ + 1
  else if ⌊x⌋ % 2 = 0 then ⌊x⌋ else ⌊x⌋ + 1

/-- Rounding to one decimal place. -/
def round1 (x : ℚ) : ℚ := (roundHalfEven (x * 10) : ℚ) / 10

/-- The comparison `student_reports.sort(key=…, reverse=True)` sorts by:
`x` precedes `y` when `x`'s percentage is at least `y`'s. -/
def reportGE (x y : ReportEntry) : Prop := y.percentage ≤ x.percentage

instance : DecidableRel reportGE :=
  fun x y => inferInstanceAs (Decidable (y.percentage ≤ x.percentage))

instance : IsTotal ReportEntry reportGE :=
  ⟨fun a b => le_total b.percentage a.percentage⟩

instance : IsTrans ReportEntry reportGE :=
  ⟨fun a b c h1 h2 => le_trans h2 h1⟩

/-- `attendance_report` (`app.py` lines 584–627): one entry per enrolled
student, in enrollment order, then
`student_reports.sort(key=lambda x: x['percentage'], reverse=True)` —
Python's stable sort, descending by the stored (rounded) percentage.  A
stable descending sort is insertion sort with the ≥-on-percentage
relation. -/
def attendance_report (st : Store) (courseId : Nat) : List ReportEntry :=
  List.insertionSort reportGE
    ((enrolledStudents st courseId).map (fun stu =>
      ⟨stu, round1 (attendancePercentage st courseId stu.id),
        (courseSessions st courseId).length⟩))

end Tracker

namespace Tracker

lemma foldl_add_eq_sum {α : Type} (f : α → ℚ) :
    ∀ (l : List α) (a : ℚ), l.foldl (fun acc s => acc + f s) a = a + (l.map f).sum := by
  intro l
  induction l with
  | nil => intro a; simp
  | cons x xs ih =>
    intro a
    simp only [List.foldl_cons, List.map_cons, List.sum_cons, ih]
    ring

/-- **C1.** For a course with `S > 0` sessions the percentage equals
`100 * (Σ over the S sessions of the weight of the student's record, or of
Absent when no record exists) / S`, where the weights are Present = 1,
Late = 0.75, Excused = 0.5, Absent = 0; for a course with `S = 0` sessions
it is exactly 0. -/
theorem attendance_percentage_formula (st : Store) (courseId stuId : Nat) :
    ((courseSessions st courseId).length ≠ 0 →
      attendancePercentage st courseId stuId =
        100 * ((courseSessions st courseId).map
            (fun s => sessionWeight st.attendance s.id stuId)).sum
          / (courseSessions st courseId).length) ∧
    ((courseSessions st courseId).length = 0 →
      attendancePercentage st courseId stuId = 0) ∧
    weightsGet "Present" 0 = 1 ∧ weightsGet "Late" 0 = 3/4 ∧
    weightsGet "Excused" 0 = 1/2 ∧ weightsGet "Absent" 0 = 0 ∧
    absentWeight = 0 := by
  refine ⟨?_, ?_, rfl, rfl, rfl, rfl, rfl⟩
  · intro h
    unfold attendancePercentage
    simp only [if_neg h]
    rw [foldl_add_eq_sum]
    ring
  · intro h
    unfold attendancePercentage
    simp only [if_pos h]

/-- A concrete run of `attendance_percentage_formula`: the spec's "Math"
scenario — 3 sessions with records Present, Late and none give
(1 + 0.75 + 0)/3 × 100 = 175/3 ≈ 58.3. -/
theorem attendance_percentage_formula_witness :
    attendancePercentage
      ⟨[⟨1, "Jane", none, none⟩], [⟨1, 1⟩],
        [⟨10, 1, 100⟩, ⟨11, 1, 101⟩, ⟨12, 1, 102⟩],
        [⟨10, 1, "Present", none⟩, ⟨11, 1, "Late", none⟩]⟩ 1 1 = 175/3 := by
  have h := attendance_percentage_formula
    ⟨[⟨1, "Jane", none, none⟩], [⟨1, 1⟩],
      [⟨10, 1, 100⟩, ⟨11, 1, 101⟩, ⟨12, 1, 102⟩],
      [⟨10, 1, "Present", none⟩, ⟨11, 1, "Late", none⟩]⟩ 1 1
  rw [h.1 (by decide)]
  simp [courseSessions, sessionWeight, attFor, weightsGet, absentWeight,
    ATTENDANCE_WEIGHTS, List.filter, List.find?, List.lookup]
  norm_num

lemma sessionWeight_append_absent (atts : List Attendance) (r : Attendance)
    (hst : r.status = "Absent") (sid stuId : Nat) :
    sessionWeight (atts ++ [r]) sid stuId = sessionWeight atts sid stuId := by
  unfold sessionWeight attFor
  rw [List.find?_append]
  cases hfind : atts.find? (fun a => a.session_id == sid && a.student_id == stuId) with
  | some a => simp
  | none =>
    cases hp : (r.session_id == sid && r.student_id == stuId) with
    | true =>
      have hr : List.find? (fun a => a.session_id == sid && a.student_id == stuId) [r]
          = some r := by simp [List.find?, hp]
      rw [hr]
      show weightsGet r.status 0 = absentWeight
      rw [hst]
      rfl
    | false =>
      have hr : List.find? (fun a => a.session_id == sid && a.student_id == stuId) [r]
          = none := by simp [List.find?, hp]
      rw [hr]
      rfl

lemma attendancePercentage_congr (st st' : Store) (c i : Nat)
    (hsess : st'.sessions = st.sessions)
    (hw : ∀ sid, sessionWeight st'.attendance sid i = sessionWeight st.attendance sid i) :
    attendancePercentage st' c i = attendancePercentage st c i := by
  unfold attendancePercentage courseSessions
  rw [hsess]
  by_cases h0 : ((st.sessions.filter (fun s => s.course_id == c)).length = 0)
  · simp [h0]
  · simp only [if_neg h0]
    have hfold : ∀ (l : List Session) (a : ℚ),
        l.foldl (fun acc t => acc + sessionWeight st'.attendance t.id i) a
          = l.foldl (fun acc t => acc + sessionWeight st.attendance t.id i) a := by
      intro l
      induction l with
      | nil => intro a; rfl
      | cons x xs ih => intro a; simp only [List.foldl_cons, ih, hw]
    rw [hfold]

/-- **C2.** For every course, student and session of that course with no
Attendance record for that (session, student) pair, inserting an explicit
`Absent` record for the pair leaves the computed attendance percentage
unchanged: a missing record is scored exactly like an explicit Absent
record. -/
theorem absent_row_substitution (st : Store) (c i : Nat) (s : Session)
    (hs : s ∈ courseSessions st c)
    (hnone : attFor st.attendance s.id i = none) :
    attendancePercentage
        { st with attendance := st.attendance ++ [⟨s.id, i, "Absent", none⟩] } c i
      = attendancePercentage st c i :=
  attendancePercentage_congr st { st with attendance := st.attendance ++ [⟨s.id, i, "Absent", none⟩] }
    c i rfl
    (fun sid => sessionWeight_append_absent st.attendance ⟨s.id, i, "Absent", none⟩ rfl sid i)

/-- A concrete run of `absent_row_substitution`: one session, no record;
materialising the Absent row keeps the percentage at 0. -/
theorem absent_row_substitution_witness :
    attendancePercentage
        ⟨[⟨1, "Jane", none, none⟩], [⟨1, 1⟩], [⟨10, 1, 100⟩],
          [] ++ [⟨10, 1, "Absent", none⟩]⟩ 1 1
      = attendancePercentage ⟨[⟨1, "Jane", none, none⟩], [⟨1, 1⟩], [⟨10, 1, 100⟩], []⟩ 1 1 :=
  absent_row_substitution ⟨[⟨1, "Jane", none, none⟩], [⟨1, 1⟩], [⟨10, 1, 100⟩], []⟩
    1 1 ⟨10, 1, 100⟩ (by decide) (by decide)

/-- **C10.** The aggregation is total in the stored status string: a record
whose status is outside {Present, Absent, Late, Excused} contributes weight
0 to the sum — the same as an explicit Absent — so the percentage
computation never fails on any stored status value. -/
theorem unknown_status_scores_zero (atts : List Attendance) (sid stuId : Nat)
    (a : Attendance) (hfind : attFor atts sid stuId = some a)
    (h1 : a.status ≠ "Present") (h2 : a.status ≠ "Absent")
    (h3 : a.status ≠ "Late") (h4 : a.status ≠ "Excused") :
    weightsGet a.status 0 = 0 ∧
    sessionWeight atts sid stuId = 0 ∧
    sessionWeight atts sid stuId = weightsGet "Absent" 0 := by
  have e1 : (a.status == "Present") = false := beq_eq_false_iff_ne.mpr h1
  have e2 : (a.status == "Absent") = false := beq_eq_false_iff_ne.mpr h2
  have e3 : (a.status == "Late") = false := beq_eq_false_iff_ne.mpr h3
  have e4 : (a.status == "Excused") = false := beq_eq_false_iff_ne.mpr h4
  have hw : weightsGet a.status 0 = 0 := by
    unfold weightsGet ATTENDANCE_WEIGHTS
    simp [List.lookup, e1, e2, e3, e4]
  have hsw : sessionWeight atts sid stuId = 0 := by
    unfold sessionWeight
    rw [hfind]
    exact hw
  exact ⟨hw, hsw, by rw [hsw]; rfl⟩

/-- A concrete run of `unknown_status_scores_zero`: a stored status
"Banana" contributes weight 0, like Absent. -/
theorem unknown_status_scores_zero_witness :
    sessionWeight [⟨10, 1, "Banana", none⟩] 10 1 = 0 :=
  (unknown_status_scores_zero [⟨10, 1, "Banana", none⟩] 10 1 ⟨10, 1, "Banana", none⟩
    (by decide) (by decide) (by decide) (by decide) (by decide)).2.1

lemma updateFirst_append_singleton (p : Attendance → Bool) (f : Attendance → Attendance)
    (l : List Attendance) (a : Attendance)
    (hl : ∀ x ∈ l, ¬ p x = true) (ha : p a = true) :
    updateFirst p f (l ++ [a]) = l ++ [f a] := by
  induction l with
  | nil => simp [updateFirst, ha]
  | cons x xs ih =>
    have hx : ¬ p x = true := hl x (List.mem_cons_self x xs)
    simp only [List.cons_append, updateFirst, if_neg hx, List.append_eq]
    rw [ih (fun y hy => hl y (List.mem_cons_of_mem x hy))]

/-- **C3.** Recording attendance a second time for the same
(session, student) pair updates the existing record in place: after the
second write the store holds exactly one Attendance row for the pair, its
status is the status of the latest write, and the total row count has only
grown by the single row the first write inserted. -/
theorem attendance_upsert_no_duplicate (atts : List Attendance) (sid stuId : Nat)
    (st1 st2 : String) (n1 n2 : Option String)
    (hnone : attFor atts sid stuId = none) :
    (upsertAttendance (upsertAttendance atts sid stuId st1 n1) sid stuId st2 n2).countP
        (fun a => a.session_id == sid && a.student_id == stuId) = 1 ∧
    (attFor (upsertAttendance (upsertAttendance atts sid stuId st1 n1) sid stuId st2 n2)
        sid stuId).map Attendance.status = some st2 ∧
    (upsertAttendance (upsertAttendance atts sid stuId st1 n1) sid stuId st2 n2).length
      = atts.length + 1 := by
  have hall : ∀ x ∈ atts, ¬ (x.session_id == sid && x.student_id == stuId) = true :=
    List.find?_eq_none.mp hnone
  have h1 : upsertAttendance atts sid stuId st1 n1 = atts ++ [⟨sid, stuId, st1, n1⟩] := by
    unfold upsertAttendance
    rw [hnone]
  have hpair : ((⟨sid, stuId, st1, n1⟩ : Attendance).session_id == sid &&
      (⟨sid, stuId, st1, n1⟩ : Attendance).student_id == stuId) = true := by simp
  have hfind2 : attFor (atts ++ [⟨sid, stuId, st1, n1⟩]) sid stuId
      = some ⟨sid, stuId, st1, n1⟩ := by
    unfold attFor
    rw [List.find?_append]
    unfold attFor at hnone
    rw [hnone]
    simp [List.find?, hpair]
  have h2 : upsertAttendance (atts ++ [⟨sid, stuId, st1, n1⟩]) sid stuId st2 n2
      = atts ++ [⟨sid, stuId, st2, n2⟩] := by
    unfold upsertAttendance
    rw [hfind2, updateFirst_append_singleton _ _ atts _ hall hpair]
  rw [h1, h2]
  refine ⟨?_, ?_, ?_⟩
  · rw [List.countP_append]
    have : atts.countP (fun a => a.session_id == sid && a.student_id == stuId) = 0 :=
      List.countP_eq_zero.mpr hall
    rw [this]
    simp [List.countP, List.countP.go]
  · unfold attFor
    rw [List.find?_append]
    unfold attFor at hnone
    rw [hnone]
    simp [List.find?]
  · simp

/-- A concrete run of `attendance_upsert_no_duplicate`: writing Present
then Late for the same pair leaves one row with status Late. -/
theorem attendance_upsert_no_duplicate_witness :
    (upsertAttendance (upsertAttendance [] 10 1 "Present" none) 10 1 "Late" none).countP
        (fun a => a.session_id == 10 && a.student_id == 1) = 1 ∧
    (attFor (upsertAttendance (upsertAttendance [] 10 1 "Present" none) 10 1 "Late" none)
        10 1).map Attendance.status = some "Late" ∧
    (upsertAttendance (upsertAttendance [] 10 1 "Present" none) 10 1 "Late" none).length
      = ([] : List Attendance).length + 1 :=
  attendance_upsert_no_duplicate [] 10 1 "Present" "Late" none none (by decide)

/-- **C4.** A second manual enroll attempt for a (course, student) pair that
already has an Enrollment fails with the conflict error and the store is
unchanged — no new Enrollment and no new Student row. -/
theorem duplicate_enrollment_rejected (st : Store) (c newId : Nat)
    (full_name ext_id email : String) (s : Student)
    (hnn : full_name ≠ "")
    (hfind : studentByName st full_name = some s)
    (henr : enrollmentExists st c s.id = true) :
    create_student st full_name ext_id email c newId
      = (st, some "Student is already enrolled in this course") := by
  unfold create_student
  rw [if_neg hnn, hfind]
  simp only [henr, if_pos]

/-- A concrete run of `duplicate_enrollment_rejected`: Alice is enrolled in
course 7; enrolling her again is rejected and nothing is written. -/
theorem duplicate_enrollment_rejected_witness :
    create_student ⟨[⟨1, "Alice", none, none⟩], [⟨7, 1⟩], [], []⟩ "Alice" "" "" 7 2
      = (⟨[⟨1, "Alice", none, none⟩], [⟨7, 1⟩], [], []⟩,
          some "Student is already enrolled in this course") :=
  duplicate_enrollment_rejected ⟨[⟨1, "Alice", none, none⟩], [⟨7, 1⟩], [], []⟩ 7 2
    "Alice" "" "" ⟨1, "Alice", none, none⟩ (by decide) (by decide) (by decide)

/-- **C8.** A second attempt to create a Session for a (course, date) pair
that already has one fails with the conflict error and no second Session
row is created: the store is returned unchanged. -/
theorem duplicate_session_rejected (st : Store) (c d newId : Nat) (s : Session)
    (hex : sessionByCourseDate st c d = some s) :
    create_session st c d newId
      = (st, some "Session already exists for this course and date") := by
  unfold create_session
  rw [hex]
  simp

/-- A concrete run of `duplicate_session_rejected`: course 1 already has a
session on date 100; creating another is rejected. -/
theorem duplicate_session_rejected_witness :
    create_session ⟨[], [], [⟨10, 1, 100⟩], []⟩ 1 100 11
      = (⟨[], [], [⟨10, 1, 100⟩], []⟩,
          some "Session already exists for this course and date") :=
  duplicate_session_rejected ⟨[], [], [⟨10, 1, 100⟩], []⟩ 1 100 11 ⟨10, 1, 100⟩ (by decide)

/-- **C7.** A "mark attendance" submission is atomic: on success the store
holds exactly the result of applying every per-student write, and on any
failure the store is unchanged — none of the writes persist. -/
theorem mark_attendance_atomic (st : Store) (sessionId : Nat)
    (statusOf : Nat → Option String) (notesOf : Nat → String) (commitOk : Bool)
    (sess : Session)
    (hs : st.sessions.find? (fun s => s.id == sessionId) = some sess) :
    ((mark_attendance st sessionId statusOf notesOf commitOk).2 = none →
      (mark_attendance st sessionId statusOf notesOf commitOk).1
        = { st with attendance := (attendanceWrites st.attendance sessionId
            (enrolledStudents st sess.course_id) statusOf notesOf) }) ∧
    ((mark_attendance st sessionId statusOf notesOf commitOk).2 ≠ none →
      (mark_attendance st sessionId statusOf notesOf commitOk).1 = st) := by
  unfold mark_attendance
  rw [hs]
  cases commitOk with
  | true => exact ⟨fun _ => rfl, fun h => absurd rfl h⟩
  | false => exact ⟨fun h => absurd h (by simp), fun _ => rfl⟩

/-- A concrete run of `mark_attendance_atomic`: with a failing commit the
submission for two enrolled students leaves the store untouched. -/
theorem mark_attendance_atomic_witness :
    (mark_attendance
        ⟨[⟨1, "Alice", none, none⟩, ⟨2, "Bob", none, none⟩], [⟨1, 1⟩, ⟨1, 2⟩],
          [⟨10, 1, 100⟩], []⟩ 10 (fun _ => some "Present") (fun _ => "") false).1
      = ⟨[⟨1, "Alice", none, none⟩, ⟨2, "Bob", none, none⟩], [⟨1, 1⟩, ⟨1, 2⟩],
          [⟨10, 1, 100⟩], []⟩ :=
  (mark_attendance_atomic
      ⟨[⟨1, "Alice", none, none⟩, ⟨2, "Bob", none, none⟩], [⟨1, 1⟩, ⟨1, 2⟩],
        [⟨10, 1, 100⟩], []⟩ 10 (fun _ => some "Present") (fun _ => "") false
      ⟨10, 1, 100⟩ (by decide)).2 (by simp [mark_attendance])

/-- **C6.** Bulk import processes rows independently — a store-level
failure on one row only records an error description and the remaining
rows are processed exactly as before — and the spec scenario holds: five
rows of which two carry a full name already enrolled in the course give
imported = 3, skipped = 2, errors = []. -/
theorem bulk_import_independent_rows :
    (∀ (st : Store) (c : Nat) (r : CsvRow) (rest : List CsvRow) (nId : Nat)
        (rep : ImportReport) (e : String), r.fail = some e →
      importRows st c (r :: rest) nId rep
        = importRows st c rest (nId + 1)
            { rep with errors := rep.errors ++ ["Row " ++ r.full_name ++ ": " ++ e] }) ∧
    (import_students
        ⟨[⟨1, "Alice", none, none⟩, ⟨2, "Bob", none, none⟩], [⟨1, 1⟩, ⟨1, 2⟩], [], []⟩ 1
        [⟨"Alice", "", "", none⟩, ⟨"Carol", "", "", none⟩, ⟨"Bob", "", "", none⟩,
          ⟨"Dave", "", "", none⟩, ⟨"Eve", "", "", none⟩] 3).2
      = ⟨3, 2, []⟩ := by
  constructor
  · intro st c r rest nId rep e hfail
    rw [importRows]
    simp only [importRow, hfail]
  · decide

/-- A concrete run of `bulk_import_independent_rows`: a failing row only
appends its error description; the (empty) remainder is untouched. -/
theorem bulk_import_independent_rows_witness :
    importRows ⟨[], [], [], []⟩ 1 [⟨"X", "", "", some "boom"⟩] 5 ⟨0, 0, []⟩
      = importRows ⟨[], [], [], []⟩ 1 [] 6 ⟨0, 0, ["Row X: boom"]⟩ :=
  bulk_import_independent_rows.1 ⟨[], [], [], []⟩ 1 ⟨"X", "", "", some "boom"⟩ [] 5
    ⟨0, 0, []⟩ "boom" rfl

/-- **C5, counterexample.** The claim demands a rejection at both call
sites, but at the CSV import site the code adopts the existing record: the
store holds only Alice with external ID "X1"; importing a row named "Bob"
with the same external ID — a reference whose name matches no Student and
whose ID is taken — produces no error, reports the row as imported, adds
an Enrollment for Alice, and creates no Student. -/
theorem import_ext_id_conflict_counterexample :
    studentByName ⟨[⟨1, "Alice", some "X1", none⟩], [], [], []⟩ "Bob" = none ∧
    studentByExtId ⟨[⟨1, "Alice", some "X1", none⟩], [], [], []⟩ "X1"
      = some ⟨1, "Alice", some "X1", none⟩ ∧
    (import_students ⟨[⟨1, "Alice", some "X1", none⟩], [], [], []⟩ 7
        [⟨"Bob", "X1", "", none⟩] 2).2 = ⟨1, 0, []⟩ ∧
    (import_students ⟨[⟨1, "Alice", some "X1", none⟩], [], [], []⟩ 7
        [⟨"Bob", "X1", "", none⟩] 2).1.enrollments = [⟨7, 1⟩] ∧
    (import_students ⟨[⟨1, "Alice", some "X1", none⟩], [], [], []⟩ 7
        [⟨"Bob", "X1", "", none⟩] 2).1.students = [⟨1, "Alice", some "X1", none⟩] := by
  decide

/-- **C5 (amended).** For a student reference whose full name matches no
Student and whose external ID is already used by an existing Student, the
two call sites differ: manual enrollment (`create_student`) rejects with a
descriptive error and writes nothing, while CSV bulk import
(`import_students`) adopts the existing record — no new Student row and no
error — and creates an Enrollment for the adopted student when none
exists. -/
theorem ext_id_conflict_two_policies (st : Store) (c newId : Nat)
    (n ext em : String) (t : Student)
    (hnn : n ≠ "") (hext_ne : ext ≠ "")
    (hname : studentByName st n = none)
    (hext : studentByExtId st ext = some t) :
    create_student st n ext em c newId
      = (st, some ("Student ID " ++ ext ++ " already exists")) ∧
    (∀ (r : CsvRow) (rep : ImportReport),
      r.full_name = n → r.ext_id = ext → r.fail = none →
      (importRow st c r newId rep).1.students = st.students ∧
      (importRow st c r newId rep).2.errors = rep.errors ∧
      (enrollmentExists st c t.id = false →
        (importRow st c r newId rep).1.enrollments = st.enrollments ++ [⟨c, t.id⟩])) := by
  constructor
  · unfold create_student
    rw [if_neg hnn, hname]
    simp [hext, hext_ne]
  · intro r rep h1 h2 h3
    subst h1
    subst h2
    simp only [importRow, h3, if_neg hnn, hname, hext, hext_ne, ne_eq,
      not_false_eq_true, decide_True, Bool.true_and, if_true]
    by_cases he : enrollmentExists st c t.id
    · simp [he]
    · simp [he]

/-- A concrete run of `ext_id_conflict_two_policies`: the manual site
rejects the Bob/X1 reference, the import site enrolls Alice (the holder of
X1). -/
theorem ext_id_conflict_two_policies_witness :
    create_student ⟨[⟨1, "Alice", some "X1", none⟩], [], [], []⟩ "Bob" "X1" "" 7 2
      = (⟨[⟨1, "Alice", some "X1", none⟩], [], [], []⟩,
          some "Student ID X1 already exists") ∧
    (importRow ⟨[⟨1, "Alice", some "X1", none⟩], [], [], []⟩ 7 ⟨"Bob", "X1", "", none⟩ 2
        ⟨0, 0, []⟩).1.enrollments = [] ++ [⟨7, 1⟩] :=
  ⟨(ext_id_conflict_two_policies ⟨[⟨1, "Alice", some "X1", none⟩], [], [], []⟩ 7 2
      "Bob" "X1" "" ⟨1, "Alice", some "X1", none⟩ (by decide) (by decide) (by decide)
      (by decide)).1,
   ((ext_id_conflict_two_policies ⟨[⟨1, "Alice", some "X1", none⟩], [], [], []⟩ 7 2
      "Bob" "X1" "" ⟨1, "Alice", some "X1", none⟩ (by decide) (by decide) (by decide)
      (by decide)).2 ⟨"Bob", "X1", "", none⟩ ⟨0, 0, []⟩ rfl rfl rfl).2.2 (by decide)⟩

lemma insertionSort_filter_percentage (q : ℚ) :
    ∀ l : List ReportEntry,
      (List.insertionSort reportGE l).filter (fun x => decide (x.percentage = q))
        = l.filter (fun x => decide (x.percentage = q))
  | [] => rfl
  | a :: l => by
    have ih := insertionSort_filter_percentage q l
    show (List.orderedInsert reportGE a (List.insertionSort reportGE l)).filter _ = _
    rw [List.orderedInsert_eq_take_drop, List.filter_append]
    have hsplit :
        ((List.insertionSort reportGE l).takeWhile
            (fun b => decide (¬ reportGE a b))).filter (fun x => decide (x.percentage = q))
          ++ ((List.insertionSort reportGE l).dropWhile
              (fun b => decide (¬ reportGE a b))).filter (fun x => decide (x.percentage = q))
          = l.filter (fun x => decide (x.percentage = q)) := by
      rw [← List.filter_append, List.takeWhile_append_dropWhile, ih]
    by_cases hq : a.percentage = q
    · have htake :
          ((List.insertionSort reportGE l).takeWhile
              (fun b => decide (¬ reportGE a b))).filter
            (fun x => decide (x.percentage = q)) = [] := by
        rw [List.filter_eq_nil_iff]
        intro x hx
        have hpred := List.mem_takeWhile_imp hx
        have hnot : ¬ reportGE a x := of_decide_eq_true hpred
        have hlt : a.percentage < x.percentage := lt_of_not_le hnot
        simp only [decide_eq_true_eq]
        intro hxq
        rw [hxq, ← hq] at hlt
        exact lt_irrefl _ hlt
      rw [htake] at hsplit ⊢
      simp only [List.nil_append] at hsplit ⊢
      rw [List.filter_cons_of_pos (by simpa using hq), hsplit,
        List.filter_cons_of_pos (by simpa using hq)]
    · rw [List.filter_cons_of_neg (by simpa using hq), hsplit,
        List.filter_cons_of_neg (by simpa using hq)]

/-- **C9.** The course-level report contains exactly one entry per enrolled
student with that student's computed (rounded) attendance percentage — the
output is a permutation of the entries built in enrollment order — and is
sorted by percentage in descending order; entries with equal percentage
keep their original, stable order. -/
theorem report_sorted_descending (st : Store) (c : Nat) :
    List.Sorted reportGE (attendance_report st c) ∧
    List.Perm (attendance_report st c)
      ((enrolledStudents st c).map (fun stu =>
        ⟨stu, round1 (attendancePercentage st c stu.id),
          (courseSessions st c).length⟩)) ∧
    (∀ q : ℚ,
      (attendance_report st c).filter (fun x => decide (x.percentage = q))
        = ((enrolledStudents st c).map (fun stu =>
            (⟨stu, round1 (attendancePercentage st c stu.id),
              (courseSessions st c).length⟩ : ReportEntry))).filter
            (fun x => decide (x.percentage = q))) :=
  ⟨List.sorted_insertionSort reportGE _,
   List.perm_insertionSort reportGE _,
   fun q => insertionSort_filter_percentage q _⟩

end Tracker
